import Mathlib

/-!
Verification of the PDF-to-image-PDF converter (`pdf_to_image_converter.py`,
`utils.py`) against its natural-language specification.

The Python code is shallowly embedded: page geometry is modelled with exact
rationals (points), the filesystem as a presence predicate on path strings,
fallible operations as `Except`, and the PyMuPDF / PIL / reportlab calls by
their observable effect on the data the claims speak about (page dimensions,
per-page success flags, files written and deleted, documents closed).
-/

namespace PdfConv

/-! ## String primitives

Python's `str.upper`, `str.lower` and `str.endswith`, modelled character-wise
(the inputs the program feeds them are ASCII format names and file paths). -/

/-- Python `s.upper()`. -/
def pyUpper (s : String) : String := String.mk (s.data.map Char.toUpper)

/-- Python `s.lower()`. -/
def pyLower (s : String) : String := String.mk (s.data.map Char.toLower)

/-- Python `s.endswith(suffix)`. -/
def pyEndsWith (s suffix : String) : Bool :=
  decide (s.data.drop (s.data.length - suffix.data.length) = suffix.data)

/-! ## Data model

`PDFPage` records a source page's physical size in points and whether
rasterizing + encoding that page succeeds (`get_pixmap`, `pixmap.save`,
`Image.open`, `pil_image.save` all succeed).  `PDFDoc` records whether
`fitz.open` succeeds, whether the document `is_encrypted`, and its pages. -/

structure PDFPage where
  width : ℚ
  height : ℚ
  renderOk : Bool
  deriving DecidableEq, Repr

structure PDFDoc where
  openOk : Bool
  is_encrypted : Bool
  pages : List PDFPage
  deriving DecidableEq, Repr

/-- The distinct failure modes of a single-file conversion, one constructor per
distinct `raise` site of the Python code. -/
inductive ConvError where
  | openFailed                 -- "Failed to open PDF: ..."
  | encrypted                  -- "PDF is password protected"
  | pageFailed (pageNum : ℕ)   -- "Failed to process page {page_num + 1}: ..."
  | invalidPdf                 -- "Invalid PDF file: ..."
  deriving DecidableEq, Repr

/-- One rasterized page as produced by `convert_pdf_to_images`: the pixel size
of the rendered raster (scale `dpi / 72` applied to the page's point size by
`fitz.Matrix(self.dpi / 72, self.dpi / 72)`) together with the page's original
physical size in points (`page.rect.width/height`), which is what
`create_pdf_from_images` uses for output page geometry. -/
structure PageImage where
  pixW : ℚ
  pixH : ℚ
  width : ℚ
  height : ℚ
  deriving DecidableEq, Repr

/-- The page loop of `PDFToImageConverter.convert_pdf_to_images` (lines
92-139): pages are processed in increasing index order; the first page whose
rasterization or encoding fails aborts the whole loop with an error carrying
the 1-based page number `n + 1`; no later page is touched. -/
def processPages (dpi : ℚ) : List PDFPage → ℕ → Except ConvError (List PageImage)
  | [], _ => .ok []
  | p :: rest, n =>
    if p.renderOk then
      match processPages dpi rest (n + 1) with
      | .ok imgs =>
          .ok ({ pixW := p.width * (dpi / 72), pixH := p.height * (dpi / 72),
                 width := p.width, height := p.height } :: imgs)
      | .error e => .error e
    else
      .error (.pageFailed (n + 1))

/-- Model of `PDFToImageConverter.convert_pdf_to_images` (lines 66-142).  The second
component counts the executed `pdf_document.close()` calls: the Python code
closes the document only on the success path (line 141); the `raise` on the
encrypted check (line 85) and the re-raise in the page loop (line 139)
propagate without closing. -/
def convert_pdf_to_images (dpi : ℚ) (doc : PDFDoc) :
    Except ConvError (List PageImage) × ℕ :=
  if !doc.openOk then (.error .openFailed, 0)
  else if doc.is_encrypted then (.error .encrypted, 0)
  else
    match processPages dpi doc.pages 0 with
    | .ok imgs => (.ok imgs, 1)
    | .error e => (.error e, 0)

/-- An output page of the reassembled PDF: `c.setPageSize((width, height))`. -/
structure OutPage where
  width : ℚ
  height : ℚ
  deriving DecidableEq, Repr

/-- Model of `PDFToImageConverter.create_pdf_from_images` (lines 144-179): one output
page per `PageImage`, in order, sized to the recorded original dimensions,
with the image drawn at (0,0) stretched to the full page. -/
def create_pdf_from_images (imgs : List PageImage) : List OutPage :=
  imgs.map (fun im => { width := im.width, height := im.height })

/-! ## Filesystem and orchestrator -/

/-- The filesystem, as far as the orchestrator observes it: which paths hold a
file. -/
structure FS where
  present : String → Bool

/-- Python `os.remove(path)`. -/
def FS.remove (fs : FS) (path : String) : FS :=
  ⟨fun s => if s = path then false else fs.present s⟩

/-- Effect of `c.save()` writing the output PDF to `path`. -/
def FS.write (fs : FS) (path : String) : FS :=
  ⟨fun s => if s = path then true else fs.present s⟩

/-- Model of `PDFToImageConverter.convert_single_pdf` (lines 181-230) for an
explicitly supplied `output_path`.  `validates` is the result of
`validate_pdf(input_path)`.  On validation failure the function raises before
touching the filesystem.  Otherwise it rasterizes; on success the reassembled
PDF is written to `output_path`; on any failure the `except` block (lines
226-230) removes `output_path` whenever a file is present there, then
re-raises. -/
def convert_single_pdf (dpi : ℚ) (validates : Bool) (doc : PDFDoc)
    (output_path : String) (fs : FS) : Except ConvError String × FS :=
  if !validates then (.error .invalidPdf, fs)
  else
    match (convert_pdf_to_images dpi doc).1 with
    | .ok _imgs => (.ok output_path, fs.write output_path)
    | .error e =>
        (.error e, if fs.present output_path then fs.remove output_path else fs)

/-- One input of a batch run: the validation outcome of its path, the document
behind it, and the output path its conversion will use. -/
structure InputFile where
  validates : Bool
  doc : PDFDoc
  output_path : String

/-- The loop body of `PDFToImageConverter.convert_batch` (lines 252-271):
every input is processed in order; a successful conversion appends its output
path and increments `successful`; a failed one is caught, counted in `failed`,
and the loop continues with the next file. -/
def batchLoop (dpi : ℚ) : List InputFile → FS → List String × ℕ × ℕ × FS
  | [], fs => ([], 0, 0, fs)
  | f :: rest, fs =>
    match convert_single_pdf dpi f.validates f.doc f.output_path fs with
    | (.ok p, fs') =>
        let r := batchLoop dpi rest fs'
        (p :: r.1, r.2.1 + 1, r.2.2.1, r.2.2.2)
    | (.error _, fs') =>
        let r := batchLoop dpi rest fs'
        (r.1, r.2.1, r.2.2.1 + 1, r.2.2.2)

/-- Model of `PDFToImageConverter.convert_batch` (lines 232-278): returns the list of
successful output paths and the final `successful` / `failed` tallies. -/
def convert_batch (dpi : ℚ) (files : List InputFile) (fs : FS) :
    List String × ℕ × ℕ × FS :=
  batchLoop dpi files fs

/-- Whether `convert_single_pdf` succeeds on an input file: validation passes,
the document opens, it is not encrypted, and every page rasterizes. -/
def fileSucceeds (f : InputFile) : Bool :=
  f.validates && f.doc.openOk && !f.doc.is_encrypted &&
    f.doc.pages.all (·.renderOk)

/-! ## Settings construction (`PDFToImageConverter.__init__`, lines 37-59) -/

structure Converter where
  dpi : ℤ
  image_format : String
  jpeg_quality : ℤ
  verbose : Bool
  deriving DecidableEq, Repr

/-- Model of `PDFToImageConverter.__init__`: stores `dpi`, the upper-cased
`image_format`, `jpeg_quality` and `verbose`, then validates them in that
order, raising `ValueError` (modelled as `.error` with the message) on the
first violation.  No file I/O occurs. -/
def mkConverter (dpi : ℤ) (image_format : String) (jpeg_quality : ℤ)
    (verbose : Bool) : Except String Converter :=
  let fmt := pyUpper image_format
  if !(dpi = 72 || dpi = 150 || dpi = 300) then
    .error ("DPI must be 72, 150, or 300")
  else if !(fmt = "JPEG" || fmt = "PNG") then
    .error ("Image format must be JPEG or PNG")
  else if !(1 ≤ jpeg_quality && jpeg_quality ≤ 100) then
    .error ("JPEG quality must be between 1 and 100")
  else
    .ok { dpi := dpi, image_format := fmt, jpeg_quality := jpeg_quality,
          verbose := verbose }

/-! ## `utils.validate_pdf` (lines 11-50)

A candidate file is described by what the checks observe: existence,
regular-file status, its path string, the MIME type `mimetypes.guess_type`
reports for the path, its byte content, and whether the two I/O operations
(opening/reading 5 bytes, `os.path.getsize`) succeed. -/

structure FileInfo where
  fexists : Bool
  isFile : Bool
  name : String
  mime : Option String
  content : List ℕ
  readable : Bool
  sizeReadable : Bool

/-- The 5 ASCII bytes of the literal `%PDF-`. -/
def pdfMagic : List ℕ := [37, 80, 68, 70, 45]

/-- Model of `utils.validate_pdf`: short-circuits on existence, regular-file status and
the `.pdf` extension (case-insensitive); if the guessed MIME type is not
`application/pdf` it falls back to reading the first 5 bytes (any I/O error
means invalid); finally the file must be at least 100 bytes. -/
def validate_pdf (f : FileInfo) : Bool :=
  if !f.fexists then false
  else if !f.isFile then false
  else if !(pyEndsWith (pyLower f.name) ".pdf") then false
  else
    let sizeOk : Bool := f.sizeReadable && decide (100 ≤ f.content.length)
    if f.mime = some ("application/pdf") then sizeOk
    else if f.readable && f.content.take 5 == pdfMagic then sizeOk
    else false

/-! ## `utils.get_output_filename` (lines 53-92)

The filesystem is again a presence predicate.  `Path(input_path).parent` and
`Path(input_path).stem` are taken as the already-parsed `dir` and `stem`
components of the input path. -/

/-- The candidate output name for counter `k`: `k = 0` is the base name
`{stem}_image_{dpi}dpi.pdf`, `k ≥ 1` the suffixed `{stem}_image_{dpi}dpi_{k}.pdf`,
both in directory `dir`. -/
def mkCandidate (dir stem : String) (dpi : ℕ) (k : ℕ) : String :=
  dir ++ "/" ++ stem ++ "_image_" ++ toString dpi ++ "dpi" ++
    (if k = 0 then "" else "_" ++ toString k) ++ ".pdf"

/-- The `while output_path.exists()` loop of `get_output_filename` (lines
83-90): while the current candidate exists, move to the candidate for the
current counter and increment it, breaking unconditionally once the counter
exceeds 1000.  `fuel` is a structural bound; it is chosen large enough in
`get_output_filename` that the `counter > 1000` break always fires first. -/
def findName (ex : String → Bool) (cand : ℕ → String) :
    ℕ → ℕ → String → String
  | 0, _, cur => cur
  | fuel + 1, counter, cur =>
    if ex cur then
      let next := cand counter
      if counter + 1 > 1000 then next
      else findName ex cand fuel (counter + 1) next
    else cur

/-- Model of `utils.get_output_filename`: starts from the base candidate with
`counter = 1`. -/
def get_output_filename (ex : String → Bool) (dir stem : String) (dpi : ℕ) :
    String :=
  findName ex (mkCandidate dir stem dpi) 1001 1 (mkCandidate dir stem dpi 0)

/-! ## `utils.sanitize_filename` (lines 125-154) -/

/-- The characters `sanitize_filename` replaces: `< > : " / \ | ? *`. -/
def invalidChars : List Char := ['<', '>', ':', '"', '/', '\\', '|', '?', '*']

/-- One character of the replacement pass (each `sanitized.replace(char, '_')`
acts independently per character, so the nine passes equal one map). -/
def replaceInvalid (c : Char) : Char :=
  if c ∈ invalidChars then '_' else c

/-- Membership in the strip set of `sanitized.strip(' .')`. -/
def isStripChar (c : Char) : Bool :=
  c = ' ' || c = '.'

/-- Python's `str.strip(' .')`: drop the maximal run of spaces/dots from both
ends. -/
def stripSpaceDot (l : List Char) : List Char :=
  ((l.dropWhile isStripChar).reverse.dropWhile isStripChar).reverse

/-- Model of `utils.sanitize_filename`: replace invalid characters with underscores,
strip spaces and dots from both ends, substitute `converted_pdf` for an empty
result, and finally truncate to 200 characters. -/
def sanitize_filename (s : String) : String :=
  let sanitized := s.data.map replaceInvalid
  let stripped := stripSpaceDot sanitized
  let ensured := if stripped.isEmpty then "converted_pdf".data else stripped
  let limited := if 200 < ensured.length then ensured.take 200 else ensured
  String.mk limited

/-! ## Helper lemmas -/

/-- When every page rasterizes, the page loop returns one image per page, in
order, carrying the page's point size and the raster scaled by `dpi / 72`. -/
theorem processPages_all_ok (dpi : ℚ) :
    ∀ (pages : List PDFPage) (n : ℕ), (∀ p ∈ pages, p.renderOk = true) →
      processPages dpi pages n = .ok (pages.map (fun p =>
        { pixW := p.width * (dpi / 72), pixH := p.height * (dpi / 72),
          width := p.width, height := p.height })) := by
  intro pages
  induction pages with
  | nil => intro n _; rfl
  | cons p rest ih =>
    intro n h
    have hp : p.renderOk = true := h p (List.mem_cons_self p rest)
    have hr := ih (n + 1) (fun q hq => h q (List.mem_cons_of_mem p hq))
    simp [processPages, hp, hr]

/-- The page loop succeeds exactly when every page rasterizes. -/
theorem processPages_isOk (dpi : ℚ) :
    ∀ (pages : List PDFPage) (n : ℕ),
      (processPages dpi pages n).isOk = pages.all (·.renderOk) := by
  intro pages
  induction pages with
  | nil => intro n; rfl
  | cons p rest ih =>
    intro n
    by_cases hp : p.renderOk = true
    · rcases hm : processPages dpi rest (n + 1) with imgs | e
      · simp [processPages, hp, ← ih (n + 1), hm, Except.isOk, Except.toBool]
      · simp [processPages, hp, ← ih (n + 1), hm, Except.isOk, Except.toBool]
    · simp only [Bool.not_eq_true] at hp
      simp [processPages, hp, Except.isOk, Except.toBool]

/-- A prefix of good pages followed by a failing page aborts the loop with the
1-based number of the failing page, whatever follows it. -/
theorem processPages_first_failure (dpi : ℚ) :
    ∀ (pre : List PDFPage) (bad : PDFPage) (rest : List PDFPage) (n : ℕ),
      (∀ p ∈ pre, p.renderOk = true) → bad.renderOk = false →
      processPages dpi (pre ++ bad :: rest) n =
        .error (.pageFailed (n + pre.length + 1)) := by
  intro pre
  induction pre with
  | nil =>
    intro bad rest n _ hbad
    simp [processPages, hbad]
  | cons p pre2 ih =>
    intro bad rest n h hbad
    have hp : p.renderOk = true := h p (List.mem_cons_self p pre2)
    have hr := ih bad rest (n + 1) (fun q hq => h q (List.mem_cons_of_mem p hq)) hbad
    simp only [List.cons_append, processPages, hp, if_true, List.append_eq]
    rw [hr]
    have harith : n + 1 + pre2.length + 1 = n + (p :: pre2).length + 1 := by
      simp; omega
    simp [harith]

/-- Rasterization succeeds exactly when the document opens, is not encrypted,
and every page rasterizes. -/
theorem convert_pdf_to_images_isOk (dpi : ℚ) (doc : PDFDoc) :
    (convert_pdf_to_images dpi doc).1.isOk =
      (doc.openOk && !doc.is_encrypted && doc.pages.all (·.renderOk)) := by
  rcases doc with ⟨op, enc, pages⟩
  have hpp := processPages_isOk dpi pages 0
  cases op
  · simp [convert_pdf_to_images, Except.isOk, Except.toBool]
  · cases enc
    · rcases hm : processPages dpi pages 0 with imgs | e
      · rw [hm] at hpp
        simpa [convert_pdf_to_images, hm, Except.isOk, Except.toBool] using hpp
      · rw [hm] at hpp
        simpa [convert_pdf_to_images, hm, Except.isOk, Except.toBool] using hpp
    · simp [convert_pdf_to_images, Except.isOk, Except.toBool]

/-- A single-file conversion succeeds exactly when validation passes and
rasterization succeeds. -/
theorem convert_single_pdf_isOk (dpi : ℚ) (v : Bool) (doc : PDFDoc)
    (out : String) (fs : FS) :
    (convert_single_pdf dpi v doc out fs).1.isOk =
      (v && doc.openOk && !doc.is_encrypted && doc.pages.all (·.renderOk)) := by
  cases v
  · simp [convert_single_pdf, Except.isOk, Except.toBool]
  · have h := convert_pdf_to_images_isOk dpi doc
    rcases hm : (convert_pdf_to_images dpi doc).1 with imgs | e
    · rw [hm] at h
      simpa [convert_single_pdf, hm, Except.isOk, Except.toBool] using h
    · rw [hm] at h
      simpa [convert_single_pdf, hm, Except.isOk, Except.toBool] using h

/-- The conditional cleanup of `convert_single_pdf`'s `except` block leaves no
file at `p`. -/
theorem FS.cleanup_absent (fs : FS) (p : String) :
    (if fs.present p then fs.remove p else fs).present p = false := by
  cases h : fs.present p <;> simp [FS.remove, h]

/-- The batch loop's tallies and output list, by induction over the input
list: `successful` counts exactly the succeeding files, `failed` exactly the
failing ones, and the returned list has one path per success. -/
theorem batchLoop_spec (dpi : ℚ) :
    ∀ (files : List InputFile) (fs : FS),
      (batchLoop dpi files fs).2.1 = (files.filter fileSucceeds).length ∧
      (batchLoop dpi files fs).2.2.1 =
        (files.filter (fun f => !fileSucceeds f)).length ∧
      (batchLoop dpi files fs).1.length = (files.filter fileSucceeds).length := by
  intro files
  induction files with
  | nil => intro fs; exact ⟨rfl, rfl, rfl⟩
  | cons f rest ih =>
    intro fs
    have hok := convert_single_pdf_isOk dpi f.validates f.doc f.output_path fs
    rcases hm : convert_single_pdf dpi f.validates f.doc f.output_path fs with ⟨res, fs2⟩
    rcases res with e | p
    · have hs : fileSucceeds f = false := by
        rw [hm] at hok
        exact hok.symm
      obtain ⟨h1, h2, h3⟩ := ih fs2
      simp [batchLoop, hm, List.filter_cons, hs, h1, h2, h3]
    · have hs : fileSucceeds f = true := by
        rw [hm] at hok
        exact hok.symm
      obtain ⟨h1, h2, h3⟩ := ih fs2
      simp [batchLoop, hm, List.filter_cons, hs, h1, h2, h3]

/-- One unfolding of the `while` loop of `get_output_filename`. -/
theorem findName_step (ex : String → Bool) (cand : ℕ → String)
    (fuel counter : ℕ) (cur : String) :
    findName ex cand (fuel + 1) counter cur =
      if ex cur then
        (if counter + 1 > 1000 then cand counter
         else findName ex cand fuel (counter + 1) (cand counter))
      else cur := rfl

/-- If the name returned by the loop still exists, the loop must have exited
through the `counter > 1000` break, so the result is the candidate for
counter 1000. -/
theorem findName_exists_imp (ex : String → Bool) (cand : ℕ → String) :
    ∀ (fuel counter : ℕ) (cur : String), counter + fuel = 1002 →
      counter ≤ 1000 → ex (findName ex cand fuel counter cur) = true →
      findName ex cand fuel counter cur = cand 1000 := by
  intro fuel
  induction fuel with
  | zero => intro counter cur hsum hle _; omega
  | succ fuel ih =>
    intro counter cur hsum hle hex
    rw [findName_step] at hex ⊢
    cases hcur : ex cur
    · simp [hcur] at hex
    · by_cases hc : counter + 1 > 1000
      · have hcv : counter = 1000 := by omega
        simp [hcur, hc, hcv]
      · simp only [hcur, if_true, if_neg hc] at hex ⊢
        exact ih (counter + 1) (cand counter) (by omega) (by omega) hex

/-! ## Claims -/

/-- C1: For every valid input PDF (it opens, is not encrypted, and every page
rasterizes) and every enumerated DPI setting (72, 150, 300), the pipeline
`convert_pdf_to_images` followed by `create_pdf_from_images` produces an
output with the same page count, and output page `i`'s physical width/height
in points is exactly input page `i`'s (exact equality, hence within 0.5pt);
the DPI enters only the pixel size of the embedded raster, at render scale
`dpi / 72`, never the output page's point-size geometry (the geometry
conjuncts below do not mention `dpi`). -/
theorem C1_pipeline_preserves_geometry (dpi : ℚ) (doc : PDFDoc)
    (_hdpi : dpi = 72 ∨ dpi = 150 ∨ dpi = 300)
    (hopen : doc.openOk = true) (henc : doc.is_encrypted = false)
    (hrender : ∀ p ∈ doc.pages, p.renderOk = true) :
    (convert_pdf_to_images dpi doc).1 =
      .ok (doc.pages.map (fun p =>
        { pixW := p.width * (dpi / 72), pixH := p.height * (dpi / 72),
          width := p.width, height := p.height })) ∧
    (create_pdf_from_images (doc.pages.map (fun p =>
        { pixW := p.width * (dpi / 72), pixH := p.height * (dpi / 72),
          width := p.width, height := p.height }))).length = doc.pages.length ∧
    (create_pdf_from_images (doc.pages.map (fun p =>
        { pixW := p.width * (dpi / 72), pixH := p.height * (dpi / 72),
          width := p.width, height := p.height }))).map
        (fun o => (o.width, o.height)) =
      doc.pages.map (fun p => (p.width, p.height)) := by
  have h := processPages_all_ok dpi doc.pages 0 hrender
  refine ⟨?_, ?_, ?_⟩
  · simp [convert_pdf_to_images, hopen, henc, h]
  · simp [create_pdf_from_images]
  · simp [create_pdf_from_images, List.map_map]

/-- The two-page US-Letter test document of the spec's scenario (612×792pt,
every page rasterizes); used by the C1 witness. -/
def usLetterDoc : PDFDoc :=
  { openOk := true, is_encrypted := false,
    pages := [{ width := 612, height := 792, renderOk := true },
              { width := 612, height := 792, renderOk := true }] }

/-- C1 witness: the two-page US-Letter document at 150 DPI; output page
geometry is 612×792pt and the rendered raster is 1275 pixels wide
(612 × 150 / 72). -/
theorem C1_witness :
    ((150 : ℚ) = 72 ∨ (150 : ℚ) = 150 ∨ (150 : ℚ) = 300) ∧
    ((convert_pdf_to_images 150 usLetterDoc).1 =
      .ok (usLetterDoc.pages.map (fun p =>
        { pixW := p.width * ((150 : ℚ) / 72), pixH := p.height * ((150 : ℚ) / 72),
          width := p.width, height := p.height })) ∧
    (create_pdf_from_images (usLetterDoc.pages.map (fun p =>
        { pixW := p.width * ((150 : ℚ) / 72), pixH := p.height * ((150 : ℚ) / 72),
          width := p.width, height := p.height }))).length =
      usLetterDoc.pages.length ∧
    (create_pdf_from_images (usLetterDoc.pages.map (fun p =>
        { pixW := p.width * ((150 : ℚ) / 72), pixH := p.height * ((150 : ℚ) / 72),
          width := p.width, height := p.height }))).map
        (fun o => (o.width, o.height)) =
      usLetterDoc.pages.map (fun p => (p.width, p.height))) :=
  ⟨Or.inr (Or.inl rfl),
    C1_pipeline_preserves_geometry 150 usLetterDoc
      (Or.inr (Or.inl rfl)) rfl rfl (by decide)⟩

/-- C3: A rasterization/encoding failure at 0-based page index `p` (here:
`pre.length` good pages, then the failing page `bad`) aborts the whole
single-file conversion with an error carrying the 1-based page number
`pre.length + 1`; the outcome is the same whatever pages follow the failing
one (none of them is processed), and after `convert_single_pdf`'s cleanup no
output file is present at `output_path`. -/
theorem C3_page_failure_aborts (dpi : ℚ) (pre : List PDFPage) (bad : PDFPage)
    (rest : List PDFPage) (output_path : String) (fs : FS)
    (hgood : ∀ p ∈ pre, p.renderOk = true) (hbad : bad.renderOk = false) :
    (convert_pdf_to_images dpi ⟨true, false, pre ++ bad :: rest⟩).1 =
      .error (.pageFailed (pre.length + 1)) ∧
    (convert_pdf_to_images dpi ⟨true, false, pre ++ bad :: rest⟩).1 =
      (convert_pdf_to_images dpi ⟨true, false, pre ++ [bad]⟩).1 ∧
    (convert_single_pdf dpi true ⟨true, false, pre ++ bad :: rest⟩
        output_path fs).1 = .error (.pageFailed (pre.length + 1)) ∧
    (convert_single_pdf dpi true ⟨true, false, pre ++ bad :: rest⟩
        output_path fs).2.present output_path = false := by
  have h1 := processPages_first_failure dpi pre bad rest 0 hgood hbad
  have h2 := processPages_first_failure dpi pre bad [] 0 hgood hbad
  simp only [Nat.zero_add] at h1 h2
  refine ⟨?_, ?_, ?_, ?_⟩
  · simp [convert_pdf_to_images, h1]
  · simp [convert_pdf_to_images, h1, h2]
  · simp [convert_single_pdf, convert_pdf_to_images, h1]
  · simp only [convert_single_pdf, convert_pdf_to_images, h1]
    simpa using FS.cleanup_absent fs output_path

/-- C3 witness: one good US-Letter page, then a failing page; the error names
page 2 and the (initially absent) output file stays absent. -/
theorem C3_witness :
    (∀ p ∈ [({ width := 612, height := 792, renderOk := true } : PDFPage)],
      p.renderOk = true) ∧
    ({ width := 612, height := 792, renderOk := false } : PDFPage).renderOk
      = false ∧
    ((convert_pdf_to_images 150 ⟨true, false,
        [{ width := 612, height := 792, renderOk := true }] ++
          { width := 612, height := 792, renderOk := false } :: []⟩).1 =
      .error (.pageFailed
        ([({ width := 612, height := 792, renderOk := true } : PDFPage)].length
          + 1)) ∧
    (convert_pdf_to_images 150 ⟨true, false,
        [{ width := 612, height := 792, renderOk := true }] ++
          { width := 612, height := 792, renderOk := false } :: []⟩).1 =
      (convert_pdf_to_images 150 ⟨true, false,
        [{ width := 612, height := 792, renderOk := true }] ++
          [{ width := 612, height := 792, renderOk := false }]⟩).1 ∧
    (convert_single_pdf 150 true ⟨true, false,
        [{ width := 612, height := 792, renderOk := true }] ++
          { width := 612, height := 792, renderOk := false } :: []⟩
        "out.pdf" ⟨fun _ => false⟩).1 =
      .error (.pageFailed
        ([({ width := 612, height := 792, renderOk := true } : PDFPage)].length
          + 1)) ∧
    (convert_single_pdf 150 true ⟨true, false,
        [{ width := 612, height := 792, renderOk := true }] ++
          { width := 612, height := 792, renderOk := false } :: []⟩
        "out.pdf" ⟨fun _ => false⟩).2.present ("out.pdf") = false) :=
  ⟨by decide, rfl,
    C3_page_failure_aborts 150
      [{ width := 612, height := 792, renderOk := true }]
      { width := 612, height := 792, renderOk := false } [] "out.pdf"
      ⟨fun _ => false⟩ (by decide) rfl⟩

/-- C5: An encrypted document that parses is rejected by
`convert_pdf_to_images` with the dedicated encrypted error — raised before
any page is rendered (the outcome is the same with the page list emptied) and
distinct from the open/parse error; the document is never silently
processed. -/
theorem C5_encrypted_rejected (dpi : ℚ) (doc : PDFDoc)
    (hopen : doc.openOk = true) (henc : doc.is_encrypted = true) :
    convert_pdf_to_images dpi doc = (.error .encrypted, 0) ∧
    convert_pdf_to_images dpi { doc with pages := [] } =
      (.error .encrypted, 0) ∧
    ConvError.encrypted ≠ ConvError.openFailed := by
  refine ⟨?_, ?_, by decide⟩ <;> simp [convert_pdf_to_images, hopen, henc]

/-- C5 witness: a concrete encrypted single-page document. -/
theorem C5_witness :
    convert_pdf_to_images 150
        ⟨true, true, [{ width := 612, height := 792, renderOk := true }]⟩ =
      (.error .encrypted, 0) ∧
    convert_pdf_to_images 150
        { (⟨true, true,
            [{ width := 612, height := 792, renderOk := true }]⟩ : PDFDoc)
          with pages := [] } = (.error .encrypted, 0) ∧
    ConvError.encrypted ≠ ConvError.openFailed :=
  C5_encrypted_rejected 150
    ⟨true, true, [{ width := 612, height := 792, renderOk := true }]⟩ rfl rfl

/-- C9: When the caller supplies an `output_path` at which a file already
exists and the conversion fails after validation succeeded (any rasterization
failure, before anything is written to `output_path`), the `except` cleanup of
`convert_single_pdf` removes the file at `output_path`: the pre-existing file
is not preserved. -/
theorem C9_preexisting_output_deleted (dpi : ℚ) (doc : PDFDoc)
    (output_path : String) (fs : FS)
    (hpre : fs.present output_path = true)
    (hfail : (convert_pdf_to_images dpi doc).1.isOk = false) :
    (convert_single_pdf dpi true doc output_path fs).1.isOk = false ∧
    (convert_single_pdf dpi true doc output_path fs).2.present output_path
      = false := by
  rcases hm : (convert_pdf_to_images dpi doc).1 with e | imgs
  · constructor
    · simp [convert_single_pdf, hm, Except.isOk, Except.toBool]
    · simp [convert_single_pdf, hm, hpre, FS.remove]
  · rw [hm] at hfail
    simp [Except.isOk, Except.toBool] at hfail

/-- C9 witness: `out.pdf` exists beforehand; page 1 fails to rasterize; after
the call the file at `out.pdf` is gone. -/
theorem C9_witness :
    ((⟨fun s => s == "out.pdf"⟩ : FS).present ("out.pdf") = true) ∧
    ((convert_pdf_to_images 150
        ⟨true, false, [{ width := 612, height := 792, renderOk := false }]⟩).1.isOk
      = false) ∧
    (convert_single_pdf 150 true
        ⟨true, false, [{ width := 612, height := 792, renderOk := false }]⟩
        "out.pdf" ⟨fun s => s == "out.pdf"⟩).1.isOk = false ∧
    (convert_single_pdf 150 true
        ⟨true, false, [{ width := 612, height := 792, renderOk := false }]⟩
        "out.pdf" ⟨fun s => s == "out.pdf"⟩).2.present ("out.pdf") = false :=
  ⟨rfl, rfl,
    C9_preexisting_output_deleted 150
      ⟨true, false, [{ width := 612, height := 792, renderOk := false }]⟩
      "out.pdf" ⟨fun s => s == "out.pdf"⟩ rfl rfl⟩

/-- C2 counterexample: the claim says a batch of N inputs of which K fail
"produces exactly N results, of which exactly K are errors".  `convert_batch`
returns only the successful output paths: a batch of one failing input (here:
a file that does not validate) returns a list of 0 results, not 1, and no
error value appears in the returned list. -/
theorem C2_counterexample :
    (convert_batch 150
        [{ validates := false, doc := ⟨true, false, []⟩, output_path := "o" }]
        ⟨fun _ => false⟩).1.length = 0 ∧
    [({ validates := false, doc := ⟨true, false, []⟩, output_path := "o" }
        : InputFile)].length = 1 ∧
    (convert_batch 150
        [{ validates := false, doc := ⟨true, false, []⟩, output_path := "o" }]
        ⟨fun _ => false⟩).2.2.1 = 1 :=
  ⟨rfl, rfl, rfl⟩

/-- C2 (amended): `convert_batch` processes all N input files — one file's
failure never aborts the remaining files — and its tallies satisfy
`successful + failed = N`, with `failed` counting exactly the K failing files
and `successful` exactly the N−K succeeding ones, whatever positions the
failures occupy (they are characterized by a per-file filter, independent of
position and of the surrounding filesystem state); the returned list carries
exactly the N−K successful output paths, the K errors being counted but not
returned. -/
theorem C2_batch_tallies (dpi : ℚ) (files : List InputFile) (fs : FS) :
    (convert_batch dpi files fs).2.1 + (convert_batch dpi files fs).2.2.1 =
      files.length ∧
    (convert_batch dpi files fs).2.1 = (files.filter fileSucceeds).length ∧
    (convert_batch dpi files fs).2.2.1 =
      (files.filter (fun f => !fileSucceeds f)).length ∧
    (convert_batch dpi files fs).1.length =
      (files.filter fileSucceeds).length := by
  obtain ⟨h1, h2, h3⟩ := batchLoop_spec dpi files fs
  refine ⟨?_, h1, h2, h3⟩
  show (batchLoop dpi files fs).2.1 + (batchLoop dpi files fs).2.2.1
    = files.length
  rw [h1, h2, ← List.length_append]
  exact (List.filter_append_perm fileSucceeds files).length_eq

/-- C2 witness: a three-file batch whose middle file fails: tallies
2 successes + 1 failure = 3 files, and the returned list has 2 paths. -/
theorem C2_witness :
    (convert_batch 150
        [{ validates := true, doc := ⟨true, false, []⟩, output_path := "a" },
         { validates := false, doc := ⟨true, false, []⟩, output_path := "b" },
         { validates := true, doc := ⟨true, false, []⟩, output_path := "c" }]
        ⟨fun _ => false⟩).2.1 +
      (convert_batch 150
        [{ validates := true, doc := ⟨true, false, []⟩, output_path := "a" },
         { validates := false, doc := ⟨true, false, []⟩, output_path := "b" },
         { validates := true, doc := ⟨true, false, []⟩, output_path := "c" }]
        ⟨fun _ => false⟩).2.2.1 =
      [({ validates := true, doc := ⟨true, false, []⟩, output_path := "a" }
          : InputFile),
       { validates := false, doc := ⟨true, false, []⟩, output_path := "b" },
       { validates := true, doc := ⟨true, false, []⟩, output_path := "c" }].length ∧
    (convert_batch 150
        [{ validates := true, doc := ⟨true, false, []⟩, output_path := "a" },
         { validates := false, doc := ⟨true, false, []⟩, output_path := "b" },
         { validates := true, doc := ⟨true, false, []⟩, output_path := "c" }]
        ⟨fun _ => false⟩).1.length =
      ([({ validates := true, doc := ⟨true, false, []⟩, output_path := "a" }
          : InputFile),
        { validates := false, doc := ⟨true, false, []⟩, output_path := "b" },
        { validates := true, doc := ⟨true, false, []⟩, output_path := "c" }].filter
          fileSucceeds).length :=
  ⟨(C2_batch_tallies 150
      [{ validates := true, doc := ⟨true, false, []⟩, output_path := "a" },
       { validates := false, doc := ⟨true, false, []⟩, output_path := "b" },
       { validates := true, doc := ⟨true, false, []⟩, output_path := "c" }]
      ⟨fun _ => false⟩).1,
   (C2_batch_tallies 150
      [{ validates := true, doc := ⟨true, false, []⟩, output_path := "a" },
       { validates := false, doc := ⟨true, false, []⟩, output_path := "b" },
       { validates := true, doc := ⟨true, false, []⟩, output_path := "c" }]
      ⟨fun _ => false⟩).2.2.2⟩

/-- C4: Every file that is zero bytes long, or whose content does not begin
with the 5 ASCII bytes `%PDF-` while its detected content type is not
`application/pdf`, is rejected by `validate_pdf` — so it never reaches the
rasterizer. -/
theorem C4_validation_rejects_nonpdf (f : FileInfo)
    (h : f.content.length = 0 ∨
      (¬ f.content.take 5 = pdfMagic ∧ f.mime ≠ some ("application/pdf"))) :
    validate_pdf f = false := by
  rcases h with h0 | ⟨hh, hm⟩
  · have hsz : decide (100 ≤ f.content.length) = false := by simp [h0]
    unfold validate_pdf
    simp [hsz]
  · unfold validate_pdf
    simp only [if_neg hm]
    have : (f.content.take 5 == pdfMagic) = false := by
      simpa using hh
    simp [this]

/-- C4 witness: a zero-byte file named `doc.pdf` whose MIME type is guessed
as `application/pdf`; and a 200-byte file of zeros named `doc.pdf` with no
MIME match and no `%PDF-` header. Both are rejected. -/
theorem C4_witness :
    (([] : List ℕ).length = 0 ∨
      (¬ ([] : List ℕ).take 5 = pdfMagic ∧
        (some ("application/pdf") : Option String) ≠ some ("application/pdf"))) ∧
    validate_pdf { fexists := true, isFile := true, name := "doc.pdf",
                   mime := some ("application/pdf"), content := [],
                   readable := true, sizeReadable := true } = false ∧
    validate_pdf { fexists := true, isFile := true, name := "doc.pdf",
                   mime := none, content := List.replicate 200 0,
                   readable := true, sizeReadable := true } = false :=
  ⟨Or.inl rfl,
    C4_validation_rejects_nonpdf
      { fexists := true, isFile := true, name := "doc.pdf",
        mime := some ("application/pdf"), content := [], readable := true,
        sizeReadable := true } (Or.inl rfl),
    C4_validation_rejects_nonpdf
      { fexists := true, isFile := true, name := "doc.pdf", mime := none,
        content := List.replicate 200 0, readable := true,
        sizeReadable := true } (Or.inr ⟨by decide, by decide⟩)⟩

/-- C6: Construction of the converter (`PDFToImageConverter.__init__`, which
performs no file I/O) raises a configuration error if and only if `dpi` is
not in 72/150/300, or the upper-cased format is neither `JPEG` nor `PNG`, or
`jpeg_quality` lies outside `[1, 100]`; moreover settings are never
re-rejected at use time: whether the conversion pipeline succeeds on a
document does not depend on the DPI value at all. -/
theorem C6_settings_validated_at_construction (dpi : ℤ) (fmt : String)
    (q : ℤ) (vb : Bool) :
    ((mkConverter dpi fmt q vb).isOk = true ↔
      ((dpi = 72 ∨ dpi = 150 ∨ dpi = 300) ∧
       (pyUpper fmt = "JPEG" ∨ pyUpper fmt = "PNG") ∧ 1 ≤ q ∧ q ≤ 100)) ∧
    (∀ (d d2 : ℚ) (doc : PDFDoc),
      (convert_pdf_to_images d doc).1.isOk =
        (convert_pdf_to_images d2 doc).1.isOk) := by
  constructor
  · have key : (mkConverter dpi fmt q vb).isOk =
        ((decide (dpi = 72) || decide (dpi = 150) || decide (dpi = 300)) &&
         ((decide (pyUpper fmt = "JPEG") || decide (pyUpper fmt = "PNG")) &&
          (decide (1 ≤ q) && decide (q ≤ 100)))) := by
      unfold mkConverter
      cases hd1 : decide (dpi = 72) <;> cases hd2 : decide (dpi = 150) <;>
        cases hd3 : decide (dpi = 300) <;>
        cases hf1 : decide (pyUpper fmt = "JPEG") <;>
        cases hf2 : decide (pyUpper fmt = "PNG") <;>
        cases hq1 : decide (1 ≤ q) <;> cases hq2 : decide (q ≤ 100) <;>
        simp [hd1, hd2, hd3, hf1, hf2, hq1, hq2, Except.isOk, Except.toBool]
    rw [key]
    simp only [Bool.and_eq_true, Bool.or_eq_true, decide_eq_true_eq]
    tauto
  · intro d d2 doc
    rw [convert_pdf_to_images_isOk, convert_pdf_to_images_isOk]

/-- C6 witness: dpi 999 is rejected (the spec's scenario) and the default
settings (150, `jpeg`, 85) are accepted. -/
theorem C6_witness :
    (¬ (mkConverter 999 ("JPEG") 85 false).isOk = true) ∧
    (mkConverter 150 ("jpeg") 85 false).isOk = true :=
  ⟨fun h => by
      have h2 := (C6_settings_validated_at_construction 999 ("JPEG") 85 false).1.mp h
      revert h2
      decide,
    (C6_settings_validated_at_construction 150 ("jpeg") 85 false).1.mpr
      (by decide)⟩

/-- C8 (spec intent, violated by the code): on the success exit the document
is closed exactly once, but on the encrypted exit and on a per-page-failure
exit `convert_pdf_to_images` propagates the exception without calling
`pdf_document.close()` — zero closes happen on those paths, contradicting
"closed exactly once on every exit path". -/
theorem C8_close_only_on_success (dpi : ℚ) (doc : PDFDoc)
    (hopen : doc.openOk = true) :
    ((convert_pdf_to_images dpi doc).1.isOk = true →
      (convert_pdf_to_images dpi doc).2 = 1) ∧
    (doc.is_encrypted = true → (convert_pdf_to_images dpi doc).2 = 0) ∧
    ((convert_pdf_to_images dpi doc).1.isOk = false →
      (convert_pdf_to_images dpi doc).2 = 0) := by
  cases henc : doc.is_encrypted
  · rcases hm : processPages dpi doc.pages 0 with e | imgs
    · have hc : convert_pdf_to_images dpi doc = (.error e, 0) := by
        simp [convert_pdf_to_images, hopen, henc, hm]
      rw [hc]
      exact ⟨by simp [Except.isOk, Except.toBool], by simp, fun _ => rfl⟩
    · have hc : convert_pdf_to_images dpi doc = (.ok imgs, 1) := by
        simp [convert_pdf_to_images, hopen, henc, hm]
      rw [hc]
      exact ⟨fun _ => rfl, by simp, by simp [Except.isOk, Except.toBool]⟩
  · have hc : convert_pdf_to_images dpi doc = (.error .encrypted, 0) := by
      simp [convert_pdf_to_images, hopen, henc]
    rw [hc]
    exact ⟨by simp [Except.isOk, Except.toBool], fun _ => rfl, fun _ => rfl⟩

/-- C8 witness (exhibits the violation): an encrypted document and a document
whose only page fails both exit with zero `close()` calls. -/
theorem C8_witness :
    (convert_pdf_to_images 150 ⟨true, true, []⟩).2 = 0 ∧
    (convert_pdf_to_images 150
      ⟨true, false, [{ width := 612, height := 792, renderOk := false }]⟩).2
      = 0 :=
  ⟨(C8_close_only_on_success 150 ⟨true, true, []⟩ rfl).2.1 rfl,
    (C8_close_only_on_success 150
      ⟨true, false, [{ width := 612, height := 792, renderOk := false }]⟩
      rfl).2.2 rfl⟩

/-- C7 counterexample: the claim says the numeric suffixing guarantees "an
existing file of the same name is never overwritten".  On a filesystem where
every candidate name exists, the loop's `counter > 1000` break returns the
suffix-1000 candidate without checking it, so the returned path is occupied
by an existing file. -/
theorem C7_counterexample :
    get_output_filename (fun _ => true) "d" "doc" 150 =
      "d/doc_image_150dpi_1000.pdf" ∧
    (fun _ => true : String → Bool)
      (get_output_filename (fun _ => true) "d" "doc" 150) = true := by
  constructor
  · have h := findName_exists_imp (fun _ => true) (mkCandidate ("d") ("doc") 150)
      1001 1 (mkCandidate ("d") ("doc") 150 0) (by norm_num) (by norm_num) rfl
    rw [get_output_filename, h]
    rfl
  · rfl

/-- C7 (amended): with no output path supplied the derived name is
`{stem}_image_{dpi}dpi.pdf` in the input's directory; an existing name gets
the numeric suffixes `_1`, `_2`, … — but the cap works by returning the
`_1000` candidate unchecked once the counter passes 1000, so the returned
path can collide with an existing file exactly in that saturated case (base
name and `_1` … `_999` all taken): whenever the returned path exists, it is
the `_1000` candidate. -/
theorem C7_output_naming (ex : String → Bool) (dir stem : String) (dpi : ℕ) :
    (ex (mkCandidate dir stem dpi 0) = false →
      get_output_filename ex dir stem dpi = mkCandidate dir stem dpi 0) ∧
    (ex (mkCandidate dir stem dpi 0) = true →
      ex (mkCandidate dir stem dpi 1) = false →
      get_output_filename ex dir stem dpi = mkCandidate dir stem dpi 1) ∧
    (ex (get_output_filename ex dir stem dpi) = true →
      get_output_filename ex dir stem dpi = mkCandidate dir stem dpi 1000) := by
  refine ⟨?_, ?_, ?_⟩
  · intro h0
    rw [get_output_filename, show (1001 : ℕ) = 1000 + 1 from rfl,
      findName_step, h0]
    simp
  · intro h0 h1
    rw [get_output_filename, show (1001 : ℕ) = 1000 + 1 from rfl,
      findName_step, h0]
    norm_num
    rw [show (1000 : ℕ) = 999 + 1 from rfl, findName_step, h1]
    simp
  · exact findName_exists_imp ex (mkCandidate dir stem dpi) 1001 1
      (mkCandidate dir stem dpi 0) (by norm_num) (by norm_num)

/-- C7 witness: with only the base name `d/doc_image_150dpi.pdf` taken, the
spec's scenario: the generated name gets the `_1` suffix; on an empty
filesystem the base name itself is returned. -/
theorem C7_witness :
    ((fun _ => false : String → Bool) (mkCandidate ("d") ("doc") 150 0) = false ∧
      get_output_filename (fun _ => false) "d" "doc" 150 =
        mkCandidate ("d") ("doc") 150 0) ∧
    ((fun s => s == "d/doc_image_150dpi.pdf" : String → Bool)
        (mkCandidate ("d") ("doc") 150 0) = true ∧
      (fun s => s == "d/doc_image_150dpi.pdf" : String → Bool)
        (mkCandidate ("d") ("doc") 150 1) = false ∧
      get_output_filename (fun s => s == "d/doc_image_150dpi.pdf") "d" "doc"
          150 = mkCandidate ("d") ("doc") 150 1) :=
  ⟨⟨rfl, (C7_output_naming (fun _ => false) "d" "doc" 150).1 rfl⟩,
    by decide,
    by decide,
    (C7_output_naming (fun s => s == "d/doc_image_150dpi.pdf") "d" "doc"
      150).2.1 (by decide) (by decide)⟩

/-- The head of a `dropWhile` result never satisfies the dropped predicate. -/
theorem head?_dropWhile_false (p : Char → Bool) :
    ∀ (l : List Char) (c : Char), (l.dropWhile p).head? = some c →
      p c = false := by
  intro l
  induction l with
  | nil => intro c h; simp [List.dropWhile] at h
  | cons a t ih =>
    intro c h
    by_cases ha : p a = true
    · rw [List.dropWhile_cons_of_pos ha] at h
      exact ih c h
    · rw [List.dropWhile_cons_of_neg ha] at h
      simp at h
      rw [← h]
      simpa using ha

/-- Dropping a prefix does not change the last element of a list, as long as
something remains. -/
theorem getLast?_dropWhile (p : Char → Bool) :
    ∀ (l : List Char), l.dropWhile p ≠ [] →
      (l.dropWhile p).getLast? = l.getLast? := by
  intro l
  induction l with
  | nil => intro h; simp [List.dropWhile] at h
  | cons a t ih =>
    intro h
    by_cases ha : p a = true
    · rw [List.dropWhile_cons_of_pos ha] at h ⊢
      rw [ih h]
      have ht : t ≠ [] := by
        rintro rfl
        simp [List.dropWhile] at h
      rcases t with _ | ⟨b, t2⟩
      · exact absurd rfl ht
      · exact List.getLast?_cons_cons.symm
    · rw [List.dropWhile_cons_of_neg ha]

/-- Every character of the stripped list occurs in the original list. -/
theorem mem_stripSpaceDot (l : List Char) (a : Char)
    (h : a ∈ stripSpaceDot l) : a ∈ l := by
  unfold stripSpaceDot at h
  have h1 := List.mem_reverse.mp h
  have h2 := (List.dropWhile_sublist isStripChar).mem h1
  have h3 := List.mem_reverse.mp h2
  exact (List.dropWhile_sublist isStripChar).mem h3

/-- The first character of a nonempty stripped list is neither a space nor a
dot. -/
theorem stripSpaceDot_head (l : List Char) (c : Char)
    (h : (stripSpaceDot l).head? = some c) : isStripChar c = false := by
  unfold stripSpaceDot at h
  rw [List.head?_reverse] at h
  have hne : (l.dropWhile isStripChar).reverse.dropWhile isStripChar ≠ [] := by
    intro h0
    rw [h0] at h
    simp at h
  rw [getLast?_dropWhile isStripChar _ hne, List.getLast?_reverse] at h
  exact head?_dropWhile_false isStripChar _ c h

/-- The last character of a nonempty stripped list is neither a space nor a
dot. -/
theorem stripSpaceDot_getLast (l : List Char) (c : Char)
    (h : (stripSpaceDot l).getLast? = some c) : isStripChar c = false := by
  unfold stripSpaceDot at h
  rw [List.getLast?_reverse] at h
  exact head?_dropWhile_false isStripChar _ c h

/-- The replacement pass leaves no invalid character in the list. -/
theorem map_replaceInvalid_valid (l : List Char) (a : Char)
    (h : a ∈ l.map replaceInvalid) : a ∉ invalidChars := by
  obtain ⟨b, _, rfl⟩ := List.mem_map.mp h
  unfold replaceInvalid
  by_cases hb : b ∈ invalidChars
  · simp [hb]
    decide
  · simp [hb]

/-- The stripped list is never longer than its input. -/
theorem stripSpaceDot_length_le (l : List Char) :
    (stripSpaceDot l).length ≤ l.length := by
  unfold stripSpaceDot
  calc ((l.dropWhile isStripChar).reverse.dropWhile isStripChar).reverse.length
      = ((l.dropWhile isStripChar).reverse.dropWhile isStripChar).length :=
        List.length_reverse _
    _ ≤ (l.dropWhile isStripChar).reverse.length :=
        (List.dropWhile_sublist isStripChar).length_le
    _ = (l.dropWhile isStripChar).length := List.length_reverse _
    _ ≤ l.length := (List.dropWhile_sublist isStripChar).length_le

set_option maxRecDepth 10000

/-- C10 counterexample: the claim says the result never ends with a space or
a dot.  For the 201-character input of 199 `a`s, a dot, and a `b`, the strip
pass leaves the string unchanged (it neither starts nor ends with a space or
dot), but the final truncation to 200 characters then cuts after the interior
dot, so the returned name ends with a dot. -/
theorem C10_counterexample :
    (sanitize_filename
        (String.mk (List.replicate 199 'a' ++ ['.', 'b']))).data.getLast? =
      some '.' ∧
    isStripChar '.' = true ∧
    (String.mk (List.replicate 199 'a' ++ ['.', 'b'])).length = 201 :=
  ⟨by decide, by decide, by decide⟩

/-- C10 (amended): `sanitize_filename` always returns a non-empty string of
at most 200 characters containing none of the characters
`< > : " / \ | ? *`, never beginning with a space or a dot, and an input that
becomes empty after replacement and stripping yields the fixed name
`converted_pdf`.  The result can end with a space or a dot, but only via the
final truncation: for inputs of length at most 200 (no truncation) the result
never ends with a space or a dot either. -/
theorem C10_sanitize_props (s : String) :
    (sanitize_filename s).length ≤ 200 ∧
    sanitize_filename s ≠ "" ∧
    (∀ c ∈ (sanitize_filename s).data, c ∉ invalidChars) ∧
    (∀ c, (sanitize_filename s).data.head? = some c →
      isStripChar c = false) ∧
    (stripSpaceDot (s.data.map replaceInvalid) = [] →
      sanitize_filename s = "converted_pdf") ∧
    (s.length ≤ 200 → ∀ c, (sanitize_filename s).data.getLast? = some c →
      isStripChar c = false) := by
  by_cases hemp : stripSpaceDot (s.data.map replaceInvalid) = []
  · have hs : sanitize_filename s = "converted_pdf" := by
      simp only [sanitize_filename]
      rw [hemp]
      decide
    refine ⟨?_, ?_, ?_, ?_, fun _ => hs, ?_⟩
    · rw [hs]; decide
    · rw [hs]; decide
    · rw [hs]; decide
    · intro c h
      rw [hs] at h
      have he : ("converted_pdf".data).head? = some 'c' := rfl
      rw [he] at h
      cases h
      decide
    · intro _ c h
      rw [hs] at h
      have he : ("converted_pdf".data).getLast? = some 'f' := by decide
      rw [he] at h
      cases h
      decide
  · have hie : (stripSpaceDot (s.data.map replaceInvalid)).isEmpty = false := by
      cases hh : (stripSpaceDot (s.data.map replaceInvalid)).isEmpty
      · rfl
      · exact absurd (List.isEmpty_iff.mp hh) hemp
    have hs : sanitize_filename s =
        String.mk
          (if 200 < (stripSpaceDot (s.data.map replaceInvalid)).length
           then (stripSpaceDot (s.data.map replaceInvalid)).take 200
           else stripSpaceDot (s.data.map replaceInvalid)) := by
      simp only [sanitize_filename, hie, Bool.false_eq_true, if_false]
    by_cases h200 : 200 < (stripSpaceDot (s.data.map replaceInvalid)).length
    · have hs2 : sanitize_filename s =
          String.mk ((stripSpaceDot (s.data.map replaceInvalid)).take 200) := by
        rw [hs, if_pos h200]
      refine ⟨?_, ?_, ?_, ?_, fun h => absurd h hemp, ?_⟩
      · rw [hs2]
        have hl : (String.mk
            ((stripSpaceDot (s.data.map replaceInvalid)).take 200)).length =
            ((stripSpaceDot (s.data.map replaceInvalid)).take 200).length := rfl
        rw [hl, List.length_take]
        exact min_le_left _ _
      · intro hcon
        rw [hs2] at hcon
        have hdata : (stripSpaceDot (s.data.map replaceInvalid)).take 200 = [] :=
          congrArg String.data hcon
        have hlen := congrArg List.length hdata
        rw [List.length_take] at hlen
        simp only [List.length_nil] at hlen
        omega
      · intro c hc
        rw [hs2] at hc
        have hc2 : c ∈ (stripSpaceDot (s.data.map replaceInvalid)).take 200 := hc
        exact map_replaceInvalid_valid (s.data) c
          (mem_stripSpaceDot (s.data.map replaceInvalid) c
            (List.mem_of_mem_take hc2))
      · intro c hc
        rw [hs2] at hc
        have hc2 : ((stripSpaceDot (s.data.map replaceInvalid)).take 200).head?
            = some c := hc
        rw [List.head?_take] at hc2
        simp at hc2
        exact stripSpaceDot_head (s.data.map replaceInvalid) c hc2
      · intro hslen
        exfalso
        have h1 := stripSpaceDot_length_le (s.data.map replaceInvalid)
        have h2 : (s.data.map replaceInvalid).length = s.data.length :=
          List.length_map _ _
        have h3 : s.length = s.data.length := rfl
        omega
    · have hs2 : sanitize_filename s =
          String.mk (stripSpaceDot (s.data.map replaceInvalid)) := by
        rw [hs, if_neg h200]
      refine ⟨?_, ?_, ?_, ?_, fun h => absurd h hemp, ?_⟩
      · rw [hs2]
        have hl : (String.mk
            (stripSpaceDot (s.data.map replaceInvalid))).length =
            (stripSpaceDot (s.data.map replaceInvalid)).length := rfl
        rw [hl]
        omega
      · intro hcon
        rw [hs2] at hcon
        exact hemp (congrArg String.data hcon)
      · intro c hc
        rw [hs2] at hc
        have hc2 : c ∈ stripSpaceDot (s.data.map replaceInvalid) := hc
        exact map_replaceInvalid_valid (s.data) c
          (mem_stripSpaceDot (s.data.map replaceInvalid) c hc2)
      · intro c hc
        rw [hs2] at hc
        have hc2 : (stripSpaceDot (s.data.map replaceInvalid)).head? = some c :=
          hc
        exact stripSpaceDot_head (s.data.map replaceInvalid) c hc2
      · intro _ c hc
        rw [hs2] at hc
        have hc2 : (stripSpaceDot (s.data.map replaceInvalid)).getLast?
            = some c := hc
        exact stripSpaceDot_getLast (s.data.map replaceInvalid) c hc2

/-- C10 witness: the input with two leading spaces, a `*`, and a trailing
dot-and-spaces run: the result is within the length bound, non-empty, and
concretely `doc_`. -/
theorem C10_witness :
    (sanitize_filename ("  doc*.  ")).length ≤ 200 ∧
    sanitize_filename ("  doc*.  ") ≠ "" ∧
    sanitize_filename ("  doc*.  ") = "doc_" :=
  ⟨(C10_sanitize_props ("  doc*.  ")).1,
    (C10_sanitize_props ("  doc*.  ")).2.1, by decide⟩

end PdfConv

